import Mathlib

/-!
# Verification of the ABS MCP server adapter

This development shallowly embeds the request-building, validation,
remote-client and response-normalization logic of the ABS (Australian
Bureau of Statistics) MCP server repository.  The repository contains
several near-duplicate variants of the same adapter; where variants
differ, each variant's function is embedded under a suffix naming its
source file:

* `...002` — the CSV-oriented variant (`src/unnamed/part_002`, schemas in
  `src/unnamed/part_008`);
* `...020` — the first (v0.2.0) variant of `src/src/abs/index.ts`;
* `...Mid` — the middle (v0.1.0, cache-less XML-aware) variant of
  `src/src/abs/index.ts`;
* `...001`, `...003`, `...006` — the variants in `src/unnamed/part_001`,
  `part_003`, `part_006`.

JavaScript runtime values are modelled by the inductive `Json` (with an
explicit `undefined`), and JS truthiness, `||`, optional chaining and
property access are modelled by `jsTruthy`, `jsOr`, `optChain`/`jsGet`.
-/

/-- A JavaScript/JSON runtime value.  `undefined` is included because the
    adapter code branches on the result of failed property lookups. -/
inductive Json where
  | undefined : Json
  | null : Json
  | bool : Bool → Json
  | num : Int → Json
  | str : String → Json
  | arr : List Json → Json
  | obj : List (String × Json) → Json

/-- Property lookup in an object literal (first binding wins; the embedded
    inputs never use duplicate keys). -/
def jsLookup : List (String × Json) → String → Json
  | [], _ => .undefined
  | (k, v) :: rest, key => if k = key then v else jsLookup rest key

/-- JS property access `j[k]`: looks up in objects, `undefined` on any
    other receiver (the embedding is used only where the source guards
    nullish receivers with `?.` or guarantees an object). -/
def jsGet : Json → String → Json
  | .obj fs, k => jsLookup fs k
  | _, _ => .undefined

/-- `v == null` in the loose JS sense: `null` or `undefined`. -/
def jsNullish : Json → Bool
  | .null => true
  | .undefined => true
  | _ => false

/-- JS truthiness: `undefined`, `null`, `false`, `0` and `""` are falsy. -/
def jsTruthy : Json → Bool
  | .undefined => false
  | .null => false
  | .bool b => b
  | .num n => n ≠ 0
  | .str s => s ≠ ""
  | .arr _ => true
  | .obj _ => true

/-- JS `a || b`. -/
def jsOr (a b : Json) : Json := if jsTruthy a then a else b

/-- JS `j.k1?.k2` (short-circuits only when `j.k1` is nullish). -/
def optChain (j : Json) (k1 k2 : String) : Json :=
  let v := jsGet j k1
  if jsNullish v then .undefined else jsGet v k2

/-- JS index access `j[i]`: array element, single-character string on a
    string receiver, `undefined` otherwise. -/
def jsIdx : Json → Nat → Json
  | .arr xs, i => xs.getD i .undefined
  | .str s, i =>
      match s.data.get? i with
      | some c => .str (String.mk [c])
      | none => .undefined
  | _, _ => .undefined

/-- JS `j.k?.[i]?.k2` (the `flow.names?.[0]?.name` pattern). -/
def optChainIdx (j : Json) (k : String) (i : Nat) (k2 : String) : Json :=
  let ns := jsGet j k
  if jsNullish ns then .undefined
  else
    let e := jsIdx ns i
    if jsNullish e then .undefined else jsGet e k2

/-- Whether the value is a plain object literal. -/
def jsIsObj : Json → Bool
  | .obj _ => true
  | _ => false

/-- JS `typeof v === 'object'` (true for `null`, arrays and objects). -/
def typeofObject : Json → Bool
  | .null => true
  | .arr _ => true
  | .obj _ => true
  | _ => false

/-- JS `String(v)` for the fragment of values the adapter passes to it
    (primitives; arrays stringify by comma-joining, objects to
    "[object Object]"; nested null/undefined array elements — which JS
    renders as empty — do not occur in any embedded input). -/
def jsToString : Json → String
  | .undefined => "undefined"
  | .null => "null"
  | .bool true => "true"
  | .bool false => "false"
  | .num n => toString n
  | .str s => s
  | .arr xs => String.intercalate "," (xs.attach.map fun ⟨x, _⟩ => jsToString x)
  | .obj _ => "[object Object]"

/-! ## String helpers (JS `trim`, `startsWith`, substring test)

These are defined over character lists (rather than through `String.trim`
and `String.startsWith`, whose Lean implementations do not reduce inside
the kernel) so that concrete witnesses evaluate by `rfl`/`decide`. -/

/-- The whitespace stripped by JS `String.prototype.trim` (the embedded
    inputs only use the ASCII subset). -/
def jsWs (c : Char) : Bool := c = ' ' || c = '\t' || c = '\n' || c = '\r'

/-- JS `s.trim()`. -/
def jsTrim (s : String) : String :=
  ⟨((s.data.dropWhile jsWs).reverse.dropWhile jsWs).reverse⟩

/-- JS `s.startsWith(p)`. -/
def strStartsWith (s p : String) : Bool := p.data.isPrefixOf s.data

/-! ## Substring test used to state (non-)occurrence of URL components -/

/-- Whether `needle` occurs as a contiguous segment of `hay`. -/
def containsSeg (hay needle : List Char) : Bool :=
  needle.isPrefixOf hay ||
    match hay with
    | [] => false
    | _ :: t => containsSeg t needle

/-- Whether the string `needle` occurs as a substring of `hay`. -/
def strContainsSub (hay needle : String) : Bool :=
  containsSeg hay.data needle.data

/-! ## The part_002 request builder (`getData` in `src/unnamed/part_002`) -/

/-- Base URL constant `ABS_API_URL` of part_002. -/
def absApiUrl002 : String := "https://data.api.abs.gov.au/rest"

/-- `const pathKey = dataKey?.trim() || 'all'` (part_002, line 118). -/
def pathKey002 : Option String → String
  | none => "all"
  | some s => if jsTrim s = "" then "all" else jsTrim s

/-- `responseFormat || 'csvfilewithlabels'` (part_002, line 115). -/
def fmtOr002 (fmt : String) : String :=
  if fmt = "" then "csvfilewithlabels" else fmt

/-- The `URLSearchParams` accumulated by part_002's `getData`: `startPeriod`
    and `endPeriod` are appended only when truthy, `format` always. -/
def params002 (startPeriod endPeriod : Option String) (fmt : String) :
    List (String × String) :=
  (match startPeriod with
   | some v => if v = "" then [] else [("startPeriod", v)]
   | none => []) ++
  (match endPeriod with
   | some v => if v = "" then [] else [("endPeriod", v)]
   | none => []) ++
  [("format", fmtOr002 fmt)]

/-- `URLSearchParams.toString()` (our parameter values need no escaping). -/
def paramsJoin : List (String × String) → String
  | [] => ""
  | [(k, v)] => k ++ "=" ++ v
  | (k, v) :: rest => k ++ "=" ++ v ++ "&" ++ paramsJoin rest

/-- The query string built by part_002's `getData`. -/
def queryString002 (startPeriod endPeriod : Option String) (fmt : String) :
    String :=
  paramsJoin (params002 startPeriod endPeriod fmt)

/-- The URL built by `getData` in part_002 (lines 104–125): throws
    `dataflowIdentifier is required` when the identifier is blank, else
    `${ABS_API_URL}/data/${dataflowIdentifier.trim()}/${pathKey}?${params}`. -/
def getData002Url (dataflowIdentifier : String) (dataKey : Option String)
    (startPeriod endPeriod : Option String) (responseFormat : String) :
    Except String String :=
  if jsTrim dataflowIdentifier = "" then .error "dataflowIdentifier is required"
  else .ok (absApiUrl002 ++ "/data/" ++ jsTrim dataflowIdentifier ++ "/" ++
    pathKey002 dataKey ++ "?" ++ queryString002 startPeriod endPeriod responseFormat)

/-! ## The v0.2.0 request builder (`getData` in `src/src/abs/index.ts`,
    lines 69–72) -/

/-- `` `${ABS_API_URL}/data/${dataflowIdentifier}${dataKey ? '/' + dataKey : ''}` ``:
    the data-key segment is appended only when `dataKey` is truthy. -/
def getData020Url (dataflowIdentifier : String) (dataKey : Option String) :
    String :=
  absApiUrl002 ++ "/data/" ++ dataflowIdentifier ++
    (match dataKey with
     | some s => if s = "" then "" else "/" ++ s
     | none => "")

/-! ## Claim C1 -/

/-- **C1, counterexample.**  The claim states that whenever the filter key
(`dataKey`) is absent, the request builder substitutes the literal `"all"`
as the dataflow-data path segment and never silently omits the segment.
In the v0.2.0 variant of `src/src/abs/index.ts` (`getData`, lines 69–72) a
valid argument bag with `dataKey` absent yields a URL whose data-key
segment is omitted entirely: no `"all"` appears anywhere in the URL. -/
theorem c1_counterexample :
    getData020Url "CPI" none = "https://data.api.abs.gov.au/rest/data/CPI" ∧
    strContainsSub (getData020Url "CPI" none) "all" = false := by
  exact ⟨rfl, by decide⟩

/-- **C1, amended.**  In the part_002 request builder (`getData`,
`src/unnamed/part_002` lines 104–151), for every argument bag with a
nonblank dataflow identifier in which `dataKey` is absent or blank, the
built URL's dataflow-data path segment is the literal `"all"`, and the
path-key segment is never the empty string for any `dataKey`; the v0.2.0
variant of `src/src/abs/index.ts` instead omits the segment when the key
is absent (see the counterexample). -/
theorem c1_amended (id : String) (dk : Option String)
    (sp ep : Option String) (fmt : String)
    (hid : jsTrim id ≠ "")
    (hdk : dk = none ∨ ∃ b, dk = some b ∧ jsTrim b = "") :
    getData002Url id dk sp ep fmt =
      .ok (absApiUrl002 ++ "/data/" ++ jsTrim id ++ "/" ++ "all" ++ "?" ++
        queryString002 sp ep fmt) ∧
    ∀ dk2 : Option String, pathKey002 dk2 ≠ "" := by
  have hpk : pathKey002 dk = "all" := by
    rcases hdk with h | ⟨b, hb, htr⟩
    · simp [h, pathKey002]
    · simp [hb, pathKey002, htr]
  refine ⟨by simp [getData002Url, hid, hpk], ?_⟩
  intro dk2
  cases dk2 with
  | none => simp [pathKey002]
  | some b =>
      simp only [pathKey002]
      split
      · simp
      · next h => exact h

/-- Witness for `c1_amended` at the concrete bag
`{dataflowIdentifier := "CPI"}` (no `dataKey`). -/
theorem c1_amended_witness :
    jsTrim "CPI" ≠ "" ∧
    (getData002Url "CPI" none none none "csvfilewithlabels" =
      .ok (absApiUrl002 ++ "/data/" ++ jsTrim "CPI" ++ "/" ++ "all" ++ "?" ++
        queryString002 none none "csvfilewithlabels") ∧
     ∀ dk2 : Option String, pathKey002 dk2 ≠ "") :=
  ⟨by decide,
   c1_amended "CPI" none none none "csvfilewithlabels" (by decide) (Or.inl rfl)⟩

/-! ## Claim C4 -/

/-- **C4, counterexample.**  The claim states that a `get_data` call
omitting `startPeriod`/`endPeriod` produces a request whose query carries
`startPeriod=<last year>` and `endPeriod=<current year>` computed from the
system clock.  In part_002's `getData` (the variant that takes period
arguments), the spec's own scenario input `ABS_ANNUAL_ERP_ASGS2016` with
no periods builds a URL containing no `startPeriod` and no `endPeriod`
query parameter at all (and nothing in `getData` reads a clock). -/
theorem c4_counterexample :
    getData002Url "ABS_ANNUAL_ERP_ASGS2016" none none none "csvfilewithlabels" =
      .ok "https://data.api.abs.gov.au/rest/data/ABS_ANNUAL_ERP_ASGS2016/all?format=csvfilewithlabels" ∧
    strContainsSub
      "https://data.api.abs.gov.au/rest/data/ABS_ANNUAL_ERP_ASGS2016/all?format=csvfilewithlabels"
      "startPeriod" = false ∧
    strContainsSub
      "https://data.api.abs.gov.au/rest/data/ABS_ANNUAL_ERP_ASGS2016/all?format=csvfilewithlabels"
      "endPeriod" = false := by
  exact ⟨rfl, by decide, by decide⟩

/-- **C4, amended.**  For every `get_data` call that omits `startPeriod`
and `endPeriod`, the part_002 builder produces a request whose query
parameter list is exactly `[format = responseFormat]` (defaulting to
`csvfilewithlabels`): absent periods never appear as query parameters,
with any value; no period default is computed from the system clock (the
literals `2021`/`2024` occur only in the functionally inert
server-metadata `defaults` block of part_002, lines 38–55). -/
theorem c4_amended (id : String) (dk : Option String) (fmt : String)
    (hid : jsTrim id ≠ "") :
    params002 none none fmt = [("format", fmtOr002 fmt)] ∧
    getData002Url id dk none none fmt =
      .ok (absApiUrl002 ++ "/data/" ++ jsTrim id ++ "/" ++ pathKey002 dk ++
        "?" ++ ("format" ++ "=" ++ fmtOr002 fmt)) := by
  refine ⟨rfl, ?_⟩
  simp [getData002Url, hid, queryString002, params002, paramsJoin]

/-- Witness for `c4_amended` at the spec's scenario input. -/
theorem c4_amended_witness :
    jsTrim "ABS_ANNUAL_ERP_ASGS2016" ≠ "" ∧
    (params002 none none "csvfilewithlabels" =
        [("format", fmtOr002 "csvfilewithlabels")] ∧
     getData002Url "ABS_ANNUAL_ERP_ASGS2016" none none none "csvfilewithlabels" =
      .ok (absApiUrl002 ++ "/data/" ++ jsTrim "ABS_ANNUAL_ERP_ASGS2016" ++ "/" ++
        pathKey002 none ++ "?" ++ ("format" ++ "=" ++ fmtOr002 "csvfilewithlabels"))) :=
  ⟨by decide, c4_amended "ABS_ANNUAL_ERP_ASGS2016" none "csvfilewithlabels" (by decide)⟩

/-! ## A model of `JSON.parse`

A fuel-based recursive-descent parser for the JSON grammar, modelling the
platform primitive `JSON.parse` used by every variant's `makeRequest`.
Numeric literals are modelled on the integer fragment (a fractional or
exponent part makes the parse fail in this model; no embedded input uses
one), and the standard string escapes are supported. -/

/-- JSON insignificant whitespace. -/
def jsonWs (c : Char) : Bool := c = ' ' || c = '\n' || c = '\t' || c = '\r'

/-- Hexadecimal digit value, for `\u` escapes. -/
def hexVal (c : Char) : Option Nat :=
  if '0' ≤ c ∧ c ≤ '9' then some (c.toNat - '0'.toNat)
  else if 'a' ≤ c ∧ c ≤ 'f' then some (c.toNat - 'a'.toNat + 10)
  else if 'A' ≤ c ∧ c ≤ 'F' then some (c.toNat - 'A'.toNat + 10)
  else none

/-- Decimal value of a digit run. -/
def digitsVal (ds : List Char) : Nat :=
  ds.foldl (fun a c => a * 10 + (c.toNat - '0'.toNat)) 0

/-- Whether a number token would continue with a fractional/exponent part
    (outside the modelled integer fragment). -/
def numContinues : List Char → Bool
  | c :: _ => c = '.' || c = 'e' || c = 'E'
  | [] => false

/-- Body of a JSON string literal (after the opening quote). -/
def parseJsonString : Nat → List Char → Option (String × List Char)
  | 0, _ => none
  | fuel + 1, cs =>
    match cs with
    | [] => none
    | '"' :: rest => some ("", rest)
    | '\\' :: e :: rest =>
      let cont := fun (c : Char) (rs : List Char) =>
        (parseJsonString fuel rs).map fun p => (String.mk (c :: p.1.data), p.2)
      match e with
      | '"' => cont '"' rest
      | '\\' => cont '\\' rest
      | '/' => cont '/' rest
      | 'n' => cont '\n' rest
      | 't' => cont '\t' rest
      | 'r' => cont '\r' rest
      | 'b' => cont (Char.ofNat 8) rest
      | 'f' => cont (Char.ofNat 12) rest
      | 'u' =>
        match rest with
        | a :: b :: c :: d :: rest2 =>
          match hexVal a, hexVal b, hexVal c, hexVal d with
          | some ha, some hb, some hc, some hd =>
              cont (Char.ofNat (((ha * 16 + hb) * 16 + hc) * 16 + hd)) rest2
          | _, _, _, _ => none
        | _ => none
      | _ => none
    | c :: rest =>
      (parseJsonString fuel rest).map fun p => (String.mk (c :: p.1.data), p.2)

mutual

/-- One JSON value (leading whitespace allowed). -/
def parseJsonVal : Nat → List Char → Option (Json × List Char)
  | 0, _ => none
  | fuel + 1, cs =>
    match cs.dropWhile jsonWs with
    | 'n' :: 'u' :: 'l' :: 'l' :: rest => some (.null, rest)
    | 't' :: 'r' :: 'u' :: 'e' :: rest => some (.bool true, rest)
    | 'f' :: 'a' :: 'l' :: 's' :: 'e' :: rest => some (.bool false, rest)
    | '"' :: rest => (parseJsonString fuel rest).map fun p => (.str p.1, p.2)
    | '[' :: rest =>
      (match rest.dropWhile jsonWs with
       | ']' :: r2 => some (.arr [], r2)
       | _ => parseJsonElems fuel rest [])
    | '{' :: rest =>
      (match rest.dropWhile jsonWs with
       | '}' :: r2 => some (.obj [], r2)
       | _ => parseJsonFields fuel rest [])
    | '-' :: rest =>
      (match rest.span Char.isDigit with
       | ([], _) => none
       | (ds, r) => if numContinues r then none
                    else some (.num (-(digitsVal ds : Int)), r))
    | c :: rest =>
      if c.isDigit then
        match (c :: rest).span Char.isDigit with
        | (ds, r) => if numContinues r then none
                     else some (.num (digitsVal ds : Int), r)
      else none
    | [] => none

/-- Comma-separated array elements, up to the closing bracket. -/
def parseJsonElems : Nat → List Char → List Json → Option (Json × List Char)
  | 0, _, _ => none
  | fuel + 1, cs, acc =>
    match parseJsonVal fuel cs with
    | none => none
    | some (v, r) =>
      match r.dropWhile jsonWs with
      | ',' :: r2 => parseJsonElems fuel r2 (acc ++ [v])
      | ']' :: r2 => some (.arr (acc ++ [v]), r2)
      | _ => none

/-- Comma-separated object members, up to the closing brace. -/
def parseJsonFields : Nat → List Char → List (String × Json) →
    Option (Json × List Char)
  | 0, _, _ => none
  | fuel + 1, cs, acc =>
    match cs.dropWhile jsonWs with
    | '"' :: r =>
      match parseJsonString fuel r with
      | none => none
      | some (k, r2) =>
        match r2.dropWhile jsonWs with
        | ':' :: r3 =>
          match parseJsonVal fuel r3 with
          | none => none
          | some (v, r4) =>
            match r4.dropWhile jsonWs with
            | ',' :: r5 => parseJsonFields fuel r5 (acc ++ [(k, v)])
            | '}' :: r5 => some (.obj (acc ++ [(k, v)]), r5)
            | _ => none
        | _ => none
    | _ => none

end

/-- `JSON.parse(s)`: `none` models a thrown `SyntaxError`. -/
def jsonParse (s : String) : Option Json :=
  match parseJsonVal (2 * s.data.length + 2) s.data with
  | some (v, rest) => if rest.dropWhile jsonWs = [] then some v else none
  | none => none

/-! ## Remote responses and the per-variant clients -/

/-- The observable part of a `fetch` response: numeric status, status text
    and the body text (read via `response.text()`). -/
structure Response where
  status : Nat
  statusText : String
  body : String

/-- `response.ok`: status in the inclusive-exclusive range [200, 300). -/
def respOk (r : Response) : Bool := 200 ≤ r.status && r.status < 300

/-- Placeholder for the engine-specific exception text interpolated into
    part_002's parse-failure message (no theorem depends on its
    content). -/
def parseErrDetail : String := "Unexpected token"

/-- The failure message thrown by part_002's `makeRequest`/`getData` on a
    non-success status (lines 72–74 / 138–141):
    `` `API request failed (${response.status}): ${response.statusText}\n${errorText}` ``. -/
def msg002 (r : Response) : String :=
  "API request failed (" ++ toString r.status ++ "): " ++ r.statusText ++
    "\n" ++ r.body

/-- `makeRequest` of `src/unnamed/part_002` (lines 61–101): on non-success
    the body is read and embedded in the thrown message together with the
    numeric status; CSV formats return the text unparsed; an empty body or
    an invalid JSON body throws. -/
def makeRequest002 (format : Option String) (r : Response) :
    Except String Json :=
  if respOk r = false then .error (msg002 r)
  else if format = some "csvfile" ∨ format = some "csvfilewithlabels" then
    .ok (.str r.body)
  else if r.body = "" then .error "Empty response received from API"
  else match jsonParse r.body with
    | some j => .ok j
    | none => .error ("Failed to parse response as JSON: " ++ parseErrDetail)

/-- `makeRequest` of `src/unnamed/part_001` (lines 45–78): reads the body
    (logging it) but throws `` `API request failed: ${statusText}` `` on
    non-success; on success any non-JSON body (XML included) throws
    `Failed to parse response as JSON`. -/
def makeRequest001 (r : Response) : Except String Json :=
  if respOk r = false then .error ("API request failed: " ++ r.statusText)
  else match jsonParse r.body with
    | some j => .ok j
    | none => .error "Failed to parse response as JSON"

/-- `makeRequest` of the middle (v0.1.0) variant of `src/src/abs/index.ts`
    (lines 202–237): non-success throws with the status text only; a body
    whose trimmed text starts with `<?xml` is returned as
    `{format: 'xml', content}` without any parse attempt; other non-JSON
    bodies are returned as `{format: 'raw', content}`. -/
def makeRequestMid (r : Response) : Except String Json :=
  if respOk r = false then .error ("API request failed: " ++ r.statusText)
  else if strStartsWith (jsTrim r.body) "<?xml" then
    .ok (.obj [("format", .str "xml"), ("content", .str r.body)])
  else match jsonParse r.body with
    | some j => .ok j
    | none => .ok (.obj [("format", .str "raw"), ("content", .str r.body)])

/-! ## Claim C3 -/

/-- **C3, counterexample.**  The claim states the client surfaces an error
carrying both the numeric status and the response body verbatim.  The
client of `src/unnamed/part_001` (and the identical one in the middle
variant of `src/src/abs/index.ts`, lines 207–211), on a 404 whose body is
`Could not find requested structures`, throws an error that contains
neither the numeral `404` nor the body (both appear only in console
logs). -/
theorem c3_counterexample :
    makeRequest001 ⟨404, "Not Found", "Could not find requested structures"⟩ =
      .error "API request failed: Not Found" ∧
    strContainsSub "API request failed: Not Found" "404" = false ∧
    strContainsSub "API request failed: Not Found"
      "Could not find requested structures" = false := by
  exact ⟨rfl, by decide, by decide⟩

/-- **C3, amended.**  Every cited client reads the response body before
signaling failure; the part_002 client surfaces an error carrying the
numeric status code and the response body verbatim
(`` `API request failed (${status}): ${statusText}\n${body}` ``), while the
part_001 / middle-index.ts clients surface only
`` `API request failed: ${statusText}` `` (see the counterexample). -/
theorem c3_amended (format : Option String) (r : Response)
    (h : respOk r = false) :
    makeRequest002 format r = .error (msg002 r) ∧
    (∃ p, msg002 r = p ++ r.body) ∧
    (∃ p q, msg002 r = p ++ toString r.status ++ q) := by
  refine ⟨by simp [makeRequest002, h],
    ⟨"API request failed (" ++ toString r.status ++ "): " ++ r.statusText ++
      "\n", rfl⟩, ?_⟩
  exact ⟨"API request failed (", "): " ++ r.statusText ++ "\n" ++ r.body,
    by simp [msg002, String.append_assoc]⟩

/-- Witness for `c3_amended` at the 404 scenario of the spec. -/
theorem c3_amended_witness :
    respOk ⟨404, "Not Found", "Could not find requested structures"⟩ = false ∧
    (makeRequest002 none ⟨404, "Not Found", "Could not find requested structures"⟩ =
      .error (msg002 ⟨404, "Not Found", "Could not find requested structures"⟩) ∧
     (∃ p, msg002 ⟨404, "Not Found", "Could not find requested structures"⟩ =
        p ++ "Could not find requested structures") ∧
     (∃ p q, msg002 ⟨404, "Not Found", "Could not find requested structures"⟩ =
        p ++ toString 404 ++ q)) :=
  ⟨by decide,
   c3_amended none ⟨404, "Not Found", "Could not find requested structures"⟩ (by decide)⟩

/-! ## Claim C6 -/

/-- The `format` argument enumeration of `GetDataSchema` in
    `src/src/abs/schemas.ts` (`z.enum(["xml", "json", "csv"])`). -/
inductive Fmt where
  | xml : Fmt
  | json : Fmt
  | csv : Fmt
deriving DecidableEq

/-- The string form of a `Fmt`, as interpolated into the URL. -/
def fmtToString : Fmt → String
  | .xml => "xml"
  | .json => "json"
  | .csv => "csv"

/-- The structured error value built by the middle variant's `getData`
    (`src/src/abs/index.ts` lines 249–266) when JSON was requested but XML
    arrived: header with the current ISO timestamp, empty `dataSets`, an
    `error` message, `format: 'xml'`, and the raw content preserved. -/
def xmlWrapped (dataflowIdentifier nowIso : String) (content : Json) : Json :=
  .obj [("header", .obj
           [("id", .str dataflowIdentifier), ("test", .bool false),
            ("prepared", .str nowIso),
            ("sender", .obj [("id", .str "ABS"),
                             ("name", .str "Australian Bureau of Statistics")])]),
        ("dataSets", .arr []),
        ("error", .str "Received XML response when JSON was requested. XML parsing not yet implemented."),
        ("format", .str "xml"),
        ("content", content)]

/-- `getData` of the middle variant of `src/src/abs/index.ts`
    (lines 240–269), applied to the fetched response `r`; `nowIso` stands
    for `new Date().toISOString()`. -/
def getDataMidResp (dataflowIdentifier : String) (format : Fmt)
    (nowIso : String) (r : Response) : Except String Json :=
  match makeRequestMid r with
  | .error e => .error e
  | .ok resp =>
    match format, jsGet resp "format" with
    | .json, .str s =>
        if s = "xml" then
          .ok (xmlWrapped dataflowIdentifier nowIso (jsGet resp "content"))
        else .ok resp
    | _, _ => .ok resp

/-- **C6, counterexample.**  The claim states that an XML body arriving
where JSON was requested is never raised on and is returned as a
structured result with format `"xml"`.  In `src/unnamed/part_001` (whose
`getData` always requests `format=jsondata`), `makeRequest` on a 200
response with an XML body throws `Failed to parse response as JSON` — it
raises, and no `format: 'xml'` result exists in that variant. -/
theorem c6_counterexample :
    makeRequest001 ⟨200, "OK", "<?xml version=\"1.0\"?><Structures/>"⟩ =
      .error "Failed to parse response as JSON" := rfl

/-- **C6, amended.**  In the middle (v0.1.0) variant of
`src/src/abs/index.ts`, a successful response whose trimmed body starts
with `<?xml` is returned by `makeRequest` as `{format: 'xml', content}`
without any parse attempt, and `getData` with requested format `json`
wraps it into the structured mismatch value (format `"xml"`, raw XML
retained, `error` message set) rather than raising; `src/unnamed/part_001`
instead raises a parse error on any XML body (see the counterexample). -/
theorem c6_amended (r : Response) (id nowIso : String)
    (hok : respOk r = true)
    (hxml : strStartsWith (jsTrim r.body) "<?xml" = true) :
    makeRequestMid r =
      .ok (.obj [("format", .str "xml"), ("content", .str r.body)]) ∧
    getDataMidResp id .json nowIso r =
      .ok (xmlWrapped id nowIso (.str r.body)) := by
  have h1 : makeRequestMid r =
      .ok (.obj [("format", .str "xml"), ("content", .str r.body)]) := by
    simp [makeRequestMid, hok, hxml]
  refine ⟨h1, ?_⟩
  simp [getDataMidResp, h1, jsGet, jsLookup]

/-- Witness for `c6_amended` at a concrete 200/XML response. -/
theorem c6_amended_witness :
    respOk ⟨200, "OK", "<?xml version=\"1.0\"?><Structures/>"⟩ = true ∧
    strStartsWith (jsTrim "<?xml version=\"1.0\"?><Structures/>") "<?xml" = true ∧
    (makeRequestMid ⟨200, "OK", "<?xml version=\"1.0\"?><Structures/>"⟩ =
      .ok (.obj [("format", .str "xml"),
                 ("content", .str "<?xml version=\"1.0\"?><Structures/>")]) ∧
     getDataMidResp "CPI" .json "2024-01-01T00:00:00.000Z"
        ⟨200, "OK", "<?xml version=\"1.0\"?><Structures/>"⟩ =
      .ok (xmlWrapped "CPI" "2024-01-01T00:00:00.000Z"
            (.str "<?xml version=\"1.0\"?><Structures/>"))) :=
  ⟨by decide, by decide,
   c6_amended ⟨200, "OK", "<?xml version=\"1.0\"?><Structures/>"⟩ "CPI"
     "2024-01-01T00:00:00.000Z" (by decide) (by decide)⟩

/-! ## Claim C2 -/

/-- `ValidatedParams` of `GetDataSchema` in `src/src/abs/schemas.ts`. -/
structure GetDataParamsMid where
  dataflowIdentifier : String
  dataKey : String
  format : Fmt

/-- The `format` field check of `GetDataSchema`
    (`z.enum(["xml", "json", "csv"]).optional().default("json")`): absent
    defaults to `json`; any string outside the enumeration, or a
    non-string, is a zod issue (`none`). -/
def parseFmtField : Json → Option Fmt
  | .undefined => some .json
  | .str s =>
      if s = "xml" then some .xml
      else if s = "json" then some .json
      else if s = "csv" then some .csv
      else none
  | _ => none

/-- `GetDataSchema.parse` of `src/src/abs/schemas.ts` (lines 11–15):
    requires string `dataflowIdentifier` and `dataKey`, and an in-range or
    absent `format`; any issue throws a `ZodError` (modelled `.error`). -/
def parseGetDataMid (j : Json) : Except String GetDataParamsMid :=
  match j with
  | .obj _ =>
    match jsGet j "dataflowIdentifier", jsGet j "dataKey",
          parseFmtField (jsGet j "format") with
    | .str dfid, .str key, some fmt => .ok ⟨dfid, key, fmt⟩
    | _, _, _ => .error "Invalid arguments: validation failed"
  | _ => .error "Invalid arguments: expected object"

/-- The `get_data` pipeline of the middle variant of
    `src/src/abs/index.ts` (handler lines 494–503): validate, then build
    the URL and fetch.  The second component lists the remote requests
    issued during the call. -/
def handleGetDataMid (args : Json) (oracle : String → Response)
    (nowIso : String) : Except String Json × List String :=
  match parseGetDataMid args with
  | .error e => (.error e, [])
  | .ok p =>
      let url := "https://data.api.abs.gov.au" ++ "/rest/data/" ++
        p.dataflowIdentifier ++ "/" ++ p.dataKey ++ "?format=" ++
        fmtToString p.format
      (getDataMidResp p.dataflowIdentifier p.format nowIso (oracle url), [url])

/-- The `responseFormat` enumeration of `GetDataSchema` in
    `src/unnamed/part_008` (lines 38–44). -/
inductive RFmt where
  | csvfile : RFmt
  | csvfilewithlabels : RFmt
deriving DecidableEq

/-- String form of an `RFmt`. -/
def rfmtToString : RFmt → String
  | .csvfile => "csvfile"
  | .csvfilewithlabels => "csvfilewithlabels"

/-- `ValidatedParams` of `GetDataSchema` in `src/unnamed/part_008`. -/
structure GetDataParams008 where
  dataflowIdentifier : String
  dataKey : String
  startPeriod : Option String
  endPeriod : Option String
  responseFormat : RFmt

/-- `z.string().min(1)` for `dataflowIdentifier`. -/
def parseId008 : Json → Option String
  | .str s => if 1 ≤ s.length then some s else none
  | _ => none

/-- `z.string().optional().default('all')` for `dataKey`. -/
def parseKey008 : Json → Option String
  | .undefined => some "all"
  | .str s => some s
  | _ => none

/-- `z.string().optional()` for the periods. -/
def parseOptStr008 : Json → Option (Option String)
  | .undefined => some none
  | .str s => some (some s)
  | _ => none

/-- `z.enum(["csvfile", "csvfilewithlabels"]).default("csvfilewithlabels")`
    for `responseFormat`. -/
def parseRFmt008 : Json → Option RFmt
  | .undefined => some .csvfilewithlabels
  | .str s =>
      if s = "csvfile" then some .csvfile
      else if s = "csvfilewithlabels" then some .csvfilewithlabels
      else none
  | _ => none

/-- `GetDataSchema.parse` of `src/unnamed/part_008` (lines 38–44). -/
def parseGetData008 (j : Json) : Except String GetDataParams008 :=
  match j with
  | .obj _ =>
    match parseId008 (jsGet j "dataflowIdentifier"),
          parseKey008 (jsGet j "dataKey"),
          parseOptStr008 (jsGet j "startPeriod"),
          parseOptStr008 (jsGet j "endPeriod"),
          parseRFmt008 (jsGet j "responseFormat") with
    | some dfid, some k, some sp, some ep, some f => .ok ⟨dfid, k, sp, ep, f⟩
    | _, _, _, _, _ => .error "Invalid arguments: validation failed"
  | _ => .error "Invalid arguments: expected object"

/-- The fetch step of part_002's `getData` (lines 133–146): on success the
    tool result is `{ data: text }`; on non-success the status-and-body
    message is thrown. -/
def getData002Result (r : Response) : Except String Json :=
  if respOk r = false then .error (msg002 r)
  else .ok (.obj [("data", .str r.body)])

/-- The `get_data` pipeline of `src/unnamed/part_002` (handler lines
    305–321): validate with part_008's schema, build the URL, fetch.  The
    second component lists the remote requests issued. -/
def handleGetData002 (args : Json) (oracle : String → Response) :
    Except String Json × List String :=
  match parseGetData008 args with
  | .error e => (.error e, [])
  | .ok p =>
    match getData002Url p.dataflowIdentifier (some p.dataKey) p.startPeriod
        p.endPeriod (rfmtToString p.responseFormat) with
    | .error e => (.error e, [])
    | .ok url => (getData002Result (oracle url), [url])

/-- **C2.**  A `get_data` call whose format-selecting argument is a string
outside the declared enumeration fails validation before any remote
request is built: in the middle variant of `src/src/abs/index.ts` a
`format` outside `{xml, json, csv}` yields a validation error and an
empty request trace, and in the part_002 variant a `responseFormat`
outside `{csvfile, csvfilewithlabels}` likewise yields a validation error
and an empty request trace — no network call occurs in either case. -/
theorem c2_no_fetch_on_bad_format :
    (∀ (args : Json) (oracle : String → Response) (nowIso : String)
       (s : String),
      jsGet args "format" = .str s → s ≠ "xml" → s ≠ "json" → s ≠ "csv" →
      (handleGetDataMid args oracle nowIso).2 = [] ∧
      ∃ m, (handleGetDataMid args oracle nowIso).1 = .error m) ∧
    (∀ (args : Json) (oracle : String → Response) (s : String),
      jsGet args "responseFormat" = .str s →
      s ≠ "csvfile" → s ≠ "csvfilewithlabels" →
      (handleGetData002 args oracle).2 = [] ∧
      ∃ m, (handleGetData002 args oracle).1 = .error m) := by
  constructor
  · intro args oracle nowIso s h h1 h2 h3
    cases args with
    | obj fs =>
        have hf : parseFmtField (jsGet (Json.obj fs) "format") = none := by
          rw [h]; simp [parseFmtField, h1, h2, h3]
        have hp : parseGetDataMid (Json.obj fs) =
            .error "Invalid arguments: validation failed" := by
          unfold parseGetDataMid
          rcases e1 : jsGet (Json.obj fs) "dataflowIdentifier" <;>
            rcases e2 : jsGet (Json.obj fs) "dataKey" <;>
              simp [e1, e2, hf]
        exact ⟨by simp [handleGetDataMid, hp],
          "Invalid arguments: validation failed",
          by simp [handleGetDataMid, hp]⟩
    | undefined => simp [jsGet] at h
    | null => simp [jsGet] at h
    | bool b => simp [jsGet] at h
    | num n => simp [jsGet] at h
    | str t => simp [jsGet] at h
    | arr xs => simp [jsGet] at h
  · intro args oracle s h h1 h2
    cases args with
    | obj fs =>
        have hf : parseRFmt008 (jsGet (Json.obj fs) "responseFormat") = none := by
          rw [h]; simp [parseRFmt008, h1, h2]
        have hp : parseGetData008 (Json.obj fs) =
            .error "Invalid arguments: validation failed" := by
          unfold parseGetData008
          rcases e1 : parseId008 (jsGet (Json.obj fs) "dataflowIdentifier") <;>
            rcases e2 : parseKey008 (jsGet (Json.obj fs) "dataKey") <;>
              rcases e3 : parseOptStr008 (jsGet (Json.obj fs) "startPeriod") <;>
                rcases e4 : parseOptStr008 (jsGet (Json.obj fs) "endPeriod") <;>
                  simp [e1, e2, e3, e4, hf]
        exact ⟨by simp [handleGetData002, hp],
          "Invalid arguments: validation failed",
          by simp [handleGetData002, hp]⟩
    | undefined => simp [jsGet] at h
    | null => simp [jsGet] at h
    | bool b => simp [jsGet] at h
    | num n => simp [jsGet] at h
    | str t => simp [jsGet] at h
    | arr xs => simp [jsGet] at h

/-- Witness for `c2_no_fetch_on_bad_format` at concrete invalid bags. -/
theorem c2_no_fetch_on_bad_format_witness :
    (jsGet (Json.obj [("dataflowIdentifier", .str "CPI"),
                      ("dataKey", .str "all"),
                      ("format", .str "yaml")]) "format" = .str "yaml" ∧
     ((handleGetDataMid (Json.obj [("dataflowIdentifier", .str "CPI"),
                      ("dataKey", .str "all"),
                      ("format", .str "yaml")])
        (fun _ => ⟨200, "OK", "{}"⟩) "2024-01-01T00:00:00.000Z").2 = [] ∧
      ∃ m, (handleGetDataMid (Json.obj [("dataflowIdentifier", .str "CPI"),
                      ("dataKey", .str "all"),
                      ("format", .str "yaml")])
        (fun _ => ⟨200, "OK", "{}"⟩) "2024-01-01T00:00:00.000Z").1 = .error m)) ∧
    (jsGet (Json.obj [("dataflowIdentifier", .str "CPI"),
                      ("responseFormat", .str "jsondata")]) "responseFormat" =
        .str "jsondata" ∧
     ((handleGetData002 (Json.obj [("dataflowIdentifier", .str "CPI"),
                      ("responseFormat", .str "jsondata")])
        (fun _ => ⟨200, "OK", "{}"⟩)).2 = [] ∧
      ∃ m, (handleGetData002 (Json.obj [("dataflowIdentifier", .str "CPI"),
                      ("responseFormat", .str "jsondata")])
        (fun _ => ⟨200, "OK", "{}"⟩)).1 = .error m)) :=
  ⟨⟨rfl, c2_no_fetch_on_bad_format.1 _ (fun _ => ⟨200, "OK", "{}"⟩)
      "2024-01-01T00:00:00.000Z" "yaml" rfl (by decide) (by decide) (by decide)⟩,
   ⟨rfl, c2_no_fetch_on_bad_format.2 _ (fun _ => ⟨200, "OK", "{}"⟩)
      "jsondata" rfl (by decide) (by decide)⟩⟩

/-! ## Dataflow record types and the listing normalizers -/

/-- The record shape produced by `listDataflows` in the v0.2.0 variant of
    `src/src/abs/index.ts` (lines 80–83). -/
structure DFlow2 where
  id : String
  name : String
deriving DecidableEq

/-- The record shape produced by `listDataflows` in `src/unnamed/part_002`
    (lines 187–195). -/
structure DFlow3 where
  id : String
  name : String
  version : String
deriving DecidableEq

/-- The record shape produced by `parseDataflowList` in
    `src/unnamed/part_003` (lines 164–170). -/
structure DFlow5 where
  id : String
  name : String
  description : String
  agency : String
  version : String
deriving DecidableEq

/-- One record of the v0.2.0 `listDataflows` map:
    `{id: String(flow.id || ''), name: String(flow.names?.[0]?.name || flow.id || '')}`. -/
def mkFlow020 (flow : Json) : DFlow2 :=
  { id := jsToString (jsOr (jsGet flow "id") (.str ""))
    name := jsToString (jsOr (optChainIdx flow "names" 0 "name")
              (jsOr (jsGet flow "id") (.str ""))) }

/-- The extraction of `listDataflows` in the v0.2.0 variant of
    `src/src/abs/index.ts` (lines 74–84):
    `response.data?.structures || response.structures || []`, then `.map`;
    a truthy non-array value has no `.map` and throws a `TypeError`. -/
def listDataflows020 (response : Json) : Except String (List DFlow2) :=
  match jsOr (optChain response "data" "structures")
        (jsOr (jsGet response "structures") (.arr [])) with
  | .arr xs => .ok (xs.map mkFlow020)
  | _ => .error "TypeError: structures.map is not a function"

/-- One record of the part_002 `listDataflows` map (lines 187–195):
    `name = flow.name || flow.names?.en || flow.id || ''`. -/
def mkFlow002 (flow : Json) : DFlow3 :=
  { id := jsToString (jsOr (jsGet flow "id") (.str ""))
    name := jsToString (jsOr (jsGet flow "name")
              (jsOr (optChain flow "names" "en")
                (jsOr (jsGet flow "id") (.str ""))))
    version := jsToString (jsOr (jsGet flow "version") (.str "1.0.0")) }

/-- The extraction of `listDataflows` in `src/unnamed/part_002`
    (lines 184–195): `json.data?.dataflows || []`, then `.map`. -/
def listDataflows002Extract (response : Json) : Except String (List DFlow3) :=
  match jsOr (optChain response "data" "dataflows") (.arr []) with
  | .arr xs => .ok (xs.map mkFlow002)
  | _ => .error "TypeError: structures.map is not a function"

/-- One record of part_003's `parseDataflowList` map (lines 164–170). -/
def mkFlow003 (flow : Json) : DFlow5 :=
  { id := jsToString (jsOr (jsGet flow "id") (.str ""))
    name := jsToString (jsOr (optChainIdx flow "names" 0 "name")
              (jsOr (jsGet flow "id") (.str "")))
    description := jsToString (jsOr (optChainIdx flow "descriptions" 0 "description")
              (.str ""))
    agency := jsToString (jsOr (jsGet flow "agencyID") (.str "ABS"))
    version := jsToString (jsOr (jsGet flow "version") (.str "1.0.0")) }

/-- `parseDataflowList` of `src/unnamed/part_003` (lines 153–171): throws
    when the response is falsy or not of object type, extracts
    `response.data?.structures || response.structures || []`, throws when
    the result is not an array (`Array.isArray`), else maps. -/
def parseDataflowList003 (response : Json) : Except String (List DFlow5) :=
  if (jsTruthy response && typeofObject response) = false then
    .error "Invalid response format: not an object"
  else
    match jsOr (optChain response "data" "structures")
          (jsOr (jsGet response "structures") (.arr [])) with
    | .arr xs => .ok (xs.map mkFlow003)
    | _ => .error "Invalid response format: structures is not an array"

/-! ## Claim C5 -/

/-- **C5.**  For every listing response that is a present top-level object
but lacks the expected nested `structures`/`dataflows` array (none of
`data.structures`, `structures`, `data.dataflows` is a truthy value), the
normalizers return an empty ordered sequence rather than an error: the
v0.2.0 `listDataflows` extraction, part_003's `parseDataflowList` and
part_002's `listDataflows` extraction all yield `[]`. -/
theorem c5_missing_array_yields_empty (response : Json)
    (hobj : jsIsObj response = true)
    (h1 : jsTruthy (optChain response "data" "structures") = false)
    (h2 : jsTruthy (jsGet response "structures") = false)
    (h3 : jsTruthy (optChain response "data" "dataflows") = false) :
    listDataflows020 response = .ok [] ∧
    parseDataflowList003 response = .ok [] ∧
    listDataflows002Extract response = .ok [] := by
  cases response with
  | obj fs =>
      refine ⟨?_, ?_, ?_⟩
      · simp [listDataflows020, jsOr, h1, h2]
      · have hg : (jsTruthy (Json.obj fs) && typeofObject (Json.obj fs)) = true := rfl
        simp [parseDataflowList003, hg, jsOr, h1, h2]
      · simp [listDataflows002Extract, jsOr, h3]
  | undefined => simp [jsIsObj] at hobj
  | null => simp [jsIsObj] at hobj
  | bool b => simp [jsIsObj] at hobj
  | num n => simp [jsIsObj] at hobj
  | str s => simp [jsIsObj] at hobj
  | arr xs => simp [jsIsObj] at hobj

/-- Witness for `c5_missing_array_yields_empty` at a concrete top-level
document with no nested dataflow array. -/
theorem c5_missing_array_yields_empty_witness :
    jsIsObj (Json.obj [("meta", .str "x")]) = true ∧
    jsTruthy (optChain (Json.obj [("meta", .str "x")]) "data" "structures") = false ∧
    jsTruthy (jsGet (Json.obj [("meta", .str "x")]) "structures") = false ∧
    jsTruthy (optChain (Json.obj [("meta", .str "x")]) "data" "dataflows") = false ∧
    (listDataflows020 (Json.obj [("meta", .str "x")]) = .ok [] ∧
     parseDataflowList003 (Json.obj [("meta", .str "x")]) = .ok [] ∧
     listDataflows002Extract (Json.obj [("meta", .str "x")]) = .ok []) :=
  ⟨rfl, rfl, rfl, rfl,
   c5_missing_array_yields_empty (Json.obj [("meta", .str "x")]) rfl rfl rfl rfl⟩

/-! ## The cached `getAvailableDataflows` variants -/

/-- A dataflow record with untyped (runtime-JS) fields, as pushed by the
    `for..of` loops of `src/unnamed/part_001` and `src/unnamed/part_006`
    (these variants do not wrap fields in `String(...)`). -/
structure DFlowJ where
  id : Json
  name : Json
  description : Json
  agency : Json
  version : Json

/-- Model of the engine-specific `TypeError` message thrown by `for..of`
    over a non-iterable (no theorem depends on its content). -/
def typeErrorMsg : String := "structures is not iterable"

/-- The sentinel record list returned by part_001's `parseDataflowList`
    `catch` branch (lines 135–141). -/
def parseErrorList001 (m : String) : List DFlowJ :=
  [{ id := .str "error", name := .str "Error parsing response",
     description := .str m, agency := .str "ABS", version := .str "1.0" }]

/-- The sentinel record list returned by part_001's
    `getAvailableDataflows` `catch` branch (lines 157–163). -/
def fetchErrorList001 (m : String) : List DFlowJ :=
  [{ id := .str "error", name := .str "Error fetching dataflows",
     description := .str m, agency := .str "ABS", version := .str "1.0" }]

/-- One record pushed by part_001's `parseDataflowList` (lines 124–130). -/
def mkFlow001 (flow : Json) : DFlowJ :=
  { id := jsOr (jsGet flow "id") (.str "")
    name := jsOr (optChainIdx flow "names" 0 "name")
              (jsOr (jsGet flow "id") (.str ""))
    description := jsOr (optChainIdx flow "descriptions" 0 "description")
              (.str "")
    agency := jsOr (jsGet flow "agencyID") (.str "ABS")
    version := jsOr (jsGet flow "version") (.str "1.0.0") }

/-- `parseDataflowList` of `src/unnamed/part_001` (lines 117–145):
    `response.data?.structures || []`, iterated with `for..of`.  Arrays
    iterate elementwise and strings characterwise; any other truthy value
    is not iterable, so the loop throws and the internal `catch` converts
    the failure into the sentinel error-record list — the function itself
    never rejects. -/
def parseDataflowList001 (response : Json) : List DFlowJ :=
  match jsOr (optChain response "data" "structures") (.arr []) with
  | .arr xs => xs.map mkFlow001
  | .str s => s.data.map fun c => mkFlow001 (.str (String.mk [c]))
  | _ => parseErrorList001 typeErrorMsg

/-- `getAvailableDataflows` of `src/unnamed/part_001` (lines 147–165):
    serves a truthy cache; otherwise fetches (`outcome`), converts a fetch
    rejection into the fetch-error sentinel without caching, and assigns
    `dataflowCache = await parseDataflowList(response)` on any fetched
    response — including when the parse failed internally. -/
def getAvailableDataflows001 (cache : Option (List DFlowJ))
    (outcome : Except String Json) : List DFlowJ × Option (List DFlowJ) :=
  match cache with
  | some c => (c, some c)
  | none =>
    match outcome with
    | .error e => (fetchErrorList001 e, none)
    | .ok j =>
        let v := parseDataflowList001 j
        (v, some v)

/-- One record pushed by part_006's `parseDataflowList` (lines 96–104). -/
def mkFlow006 (flow : Json) : DFlowJ :=
  { id := jsGet flow "id"
    name := jsOr (jsGet flow "name") (jsGet flow "id")
    description := .str ""
    agency := jsGet flow "agency"
    version := jsGet flow "version" }

/-- `parseDataflowList` of `src/unnamed/part_006` (lines 89–111):
    `response.structures || []` iterated with `for..of`; a non-iterable
    truthy value makes the `catch` rethrow `Failed to parse dataflow
    list`. -/
def parseDataflowList006 (response : Json) : Except String (List DFlowJ) :=
  match jsOr (jsGet response "structures") (.arr []) with
  | .arr xs => .ok (xs.map mkFlow006)
  | .str s => .ok (s.data.map fun c => mkFlow006 (.str (String.mk [c])))
  | _ => .error "Failed to parse dataflow list"

/-- `getAvailableDataflows` of `src/unnamed/part_006` (lines 113–119):
    serves a truthy cache; otherwise fetch and parse, assigning the cache
    only when both succeed (errors propagate before the assignment). -/
def getAvailableDataflows006 (cache : Option (List DFlowJ))
    (outcome : Except String Json) :
    Except String (List DFlowJ) × Option (List DFlowJ) :=
  match cache with
  | some c => (.ok c, some c)
  | none =>
    match outcome with
    | .error e => (.error e, none)
    | .ok j =>
        match parseDataflowList006 j with
        | .error e => (.error e, none)
        | .ok v => (.ok v, some v)

/-! ## The paginated part_003 variant -/

/-- The outcome of one `getStructureList` page fetch in part_003:
    a rejection, or a fetched-and-JSON-parsed page document. -/
inductive PageResult where
  | fail : PageResult
  | page : Json → PageResult

/-- A remote oracle assigning to every page number its fetch outcome. -/
def Oracle003 : Type := Nat → PageResult

/-- The pagination loop body of part_003's `getAvailableDataflows`
    (lines 177–202): fetch the page; reject on fetch failure or when the
    document is falsy or lacks a truthy `structures`; parse; stop on an
    empty page (keeping the accumulator) or once the accumulated record
    count reaches the fixed cap of 1000 records; otherwise continue with
    the next page.  Returns the loop result together with the number of
    page fetches performed. -/
def collect003 (oracle : Oracle003) (page : Nat) (acc : List DFlow5) :
    Except String (List DFlow5) × Nat :=
  match oracle page with
  | .fail => (.error "API request failed", 1)
  | .page j =>
    if (jsTruthy j && jsTruthy (jsGet j "structures")) = false then
      (.error "Invalid response format from ABS API", 1)
    else
      match parseDataflowList003 j with
      | .error e => (.error e, 1)
      | .ok dfs =>
        if hdfs : dfs = [] then (.ok acc, 1)
        else
          let acc2 := acc ++ dfs
          if hcap : 1000 ≤ acc2.length then (.ok acc2, 1)
          else
            let r := collect003 oracle (page + 1) acc2
            (r.1, r.2 + 1)
termination_by 1000 - acc.length
decreasing_by
  simp only [acc2, List.length_append]
  have hlen : 0 < dfs.length := List.length_pos.mpr hdfs
  simp only [acc2, List.length_append] at hcap
  omega

/-- `structuredClone` on a list of records: at the level of pure values a
    deep copy is the identity (the heap model below captures the aliasing
    consequences). -/
def structuredClone003 (l : List DFlow5) : List DFlow5 := l

/-- `getAvailableDataflows` of `src/unnamed/part_003` (lines 173–210):
    a truthy cache is served as a `structuredClone`; otherwise the
    pagination loop runs, the cache is assigned only after the whole loop
    succeeds, and a clone of it is returned; errors propagate with the
    cache untouched.  The third component counts remote page fetches. -/
def getAvailableDataflows003 (cache : Option (List DFlow5))
    (oracle : Oracle003) :
    Except String (List DFlow5) × Option (List DFlow5) × Nat :=
  match cache with
  | some c => (.ok (structuredClone003 c), some c, 0)
  | none =>
    match collect003 oracle 1 [] with
    | (.error e, n) => (.error e, none, n)
    | (.ok v, n) => (.ok (structuredClone003 v), some v, n)

/-- A sequence of `list_dataflows` calls against part_003's cache, each
    call taking its own remote oracle; returns the per-call results, the
    final cache and the total number of remote page fetches. -/
def runCalls003 (cache : Option (List DFlow5)) :
    List Oracle003 →
    List (Except String (List DFlow5)) × Option (List DFlow5) × Nat
  | [] => ([], cache, 0)
  | o :: os =>
    match getAvailableDataflows003 cache o with
    | (r, c2, n) =>
      match runCalls003 c2 os with
      | (rs, c3, m) => (r :: rs, c3, n + m)

/-! ## Claim C10 -/

/-- **C10, counterexample.**  The claim states the cache is assigned only
after a fully successful fetch-and-parse.  In `src/unnamed/part_001`, a
successful fetch whose document has a truthy non-iterable
`data.structures` makes the parse fail; the internal `catch` converts the
failure into the sentinel error-record list, and `getAvailableDataflows`
assigns that sentinel to the cache — so the cache does not remain in its
prior `null` state, and subsequent calls serve the failed result without
re-fetching. -/
theorem c10_counterexample :
    parseDataflowList001
        (Json.obj [("data", Json.obj [("structures", Json.num 5)])]) =
      parseErrorList001 typeErrorMsg ∧
    (getAvailableDataflows001 none
        (.ok (Json.obj [("data", Json.obj [("structures", Json.num 5)])]))).2 =
      some (parseErrorList001 typeErrorMsg) ∧
    (getAvailableDataflows001
        (some (parseErrorList001 typeErrorMsg)) (.error "unused")).1 =
      parseErrorList001 typeErrorMsg := by
  exact ⟨rfl, rfl, rfl⟩

/-- **C10, amended.**  In part_003 and part_006 the cache is assigned only
after a fully successful fetch-and-parse: a failing pagination loop
(part_003), a fetch rejection or a parse rejection (part_006), and a
fetch rejection in part_001, all leave the cache in its prior state.  In
part_001, however, a parse failure on a successfully fetched document is
converted into a sentinel error-record list that *is* assigned to the
cache (see the counterexample). -/
theorem c10_amended :
    (∀ (cache : Option (List DFlow5)) (oracle : Oracle003) (e : String)
       (n : Nat), collect003 oracle 1 [] = (.error e, n) →
       (getAvailableDataflows003 cache oracle).2.1 = cache) ∧
    (∀ (cache : Option (List DFlowJ)) (e : String),
       (getAvailableDataflows006 cache (.error e)).2 = cache) ∧
    (∀ (cache : Option (List DFlowJ)) (j : Json) (e : String),
       parseDataflowList006 j = .error e →
       (getAvailableDataflows006 cache (.ok j)).2 = cache) ∧
    (∀ (cache : Option (List DFlowJ)) (e : String),
       (getAvailableDataflows001 cache (.error e)).2 = cache) := by
  refine ⟨?_, ?_, ?_, ?_⟩
  · intro cache oracle e n h
    cases cache with
    | some c => rfl
    | none => simp [getAvailableDataflows003, h]
  · intro cache e
    cases cache with
    | some c => rfl
    | none => rfl
  · intro cache j e h
    cases cache with
    | some c => rfl
    | none => simp [getAvailableDataflows006, h]
  · intro cache e
    cases cache with
    | some c => rfl
    | none => rfl

/-- Witness for `c10_amended` at concrete failing fetch/parse outcomes. -/
theorem c10_amended_witness :
    collect003 (fun _ => .fail) 1 [] = (.error "API request failed", 1) ∧
    (getAvailableDataflows003 none (fun _ => .fail)).2.1 = none ∧
    (getAvailableDataflows006 (none : Option (List DFlowJ))
        (.error "fetch failed")).2 = none ∧
    parseDataflowList006 (Json.obj [("structures", Json.num 5)]) =
      .error "Failed to parse dataflow list" ∧
    (getAvailableDataflows006 none
        (.ok (Json.obj [("structures", Json.num 5)]))).2 = none ∧
    (getAvailableDataflows001 (none : Option (List DFlowJ))
        (.error "fetch failed")).2 = none :=
  ⟨by unfold collect003; rfl,
   c10_amended.1 none (fun _ => .fail) "API request failed" 1
     (by unfold collect003; rfl),
   c10_amended.2.1 none "fetch failed",
   by rfl,
   c10_amended.2.2.1 none (Json.obj [("structures", Json.num 5)])
     "Failed to parse dataflow list" (by rfl),
   c10_amended.2.2.2 none "fetch failed"⟩

/-! ## Claim C7 -/

/-- Once part_003's cache holds `v`, every further call returns `.ok v`
    (a clone of the cached content), performs zero remote fetches and
    leaves the cache untouched. -/
theorem runCalls003_cached (v : List DFlow5) (os : List Oracle003) :
    runCalls003 (some v) os = (os.map fun _ => .ok v, some v, 0) := by
  induction os with
  | nil => rfl
  | cons o os ih =>
      simp [runCalls003, getAvailableDataflows003, structuredClone003, ih]

/-- The number of `getStructureList` calls one part_006
    `getAvailableDataflows` invocation performs: the truthy-cache early
    return (line 114) precedes the variant's single fetch (line 116), so
    a hit fetches nothing and a miss fetches exactly once. -/
def fetchCount006 (cache : Option (List DFlowJ)) : Nat :=
  match cache with
  | some _ => 0
  | none => 1

/-- A sequence of `list_dataflows` calls against part_006's cache, each
    call taking its own fetch outcome; returns the per-call results, the
    final cache and the total number of `getStructureList` calls. -/
def runCalls006 (cache : Option (List DFlowJ)) :
    List (Except String Json) →
    List (Except String (List DFlowJ)) × Option (List DFlowJ) × Nat
  | [] => ([], cache, 0)
  | o :: os =>
    match getAvailableDataflows006 cache o with
    | (r, c2) =>
      match runCalls006 c2 os with
      | (rs, c3, m) => (r :: rs, c3, fetchCount006 cache + m)

/-- The number of `getStructureList` calls one part_001
    `getAvailableDataflows` invocation performs: the truthy-cache early
    return (line 148) precedes the variant's single fetch (line 151,
    issued on every miss whether or not it succeeds). -/
def fetchCount001 (cache : Option (List DFlowJ)) : Nat :=
  match cache with
  | some _ => 0
  | none => 1

/-- A sequence of `list_dataflows` calls against part_001's cache
    (part_001's calls never reject: failures surface as sentinel record
    lists). -/
def runCalls001 (cache : Option (List DFlowJ)) :
    List (Except String Json) →
    List (List DFlowJ) × Option (List DFlowJ) × Nat
  | [] => ([], cache, 0)
  | o :: os =>
    match getAvailableDataflows001 cache o with
    | (r, c2) =>
      match runCalls001 c2 os with
      | (rs, c3, m) => (r :: rs, c3, fetchCount001 cache + m)

/-- Once part_006's cache holds `v`, every further call returns `.ok v`
    without fetching, leaving the cache untouched. -/
theorem runCalls006_cached (v : List DFlowJ)
    (os : List (Except String Json)) :
    runCalls006 (some v) os = (os.map fun _ => .ok v, some v, 0) := by
  induction os with
  | nil => rfl
  | cons o os ih =>
      simp [runCalls006, getAvailableDataflows006, fetchCount006, ih]

/-- Once part_001's cache holds `v`, every further call returns `v`
    without fetching, leaving the cache untouched. -/
theorem runCalls001_cached (v : List DFlowJ)
    (os : List (Except String Json)) :
    runCalls001 (some v) os = (os.map fun _ => v, some v, 0) := by
  induction os with
  | nil => rfl
  | cons o os ih =>
      simp [runCalls001, getAvailableDataflows001, fetchCount001, ih]

/-- **C7, counterexample.**  The claim conditions only on the first call
completing a successful *fetch*.  In `src/unnamed/part_006`, a first call
whose fetch succeeds but whose document fails `parseDataflowList` (here
`{"structures": 5}`, truthy but not iterable) caches nothing, so the
second call performs an additional remote call: two calls, two
`getStructureList` fetches. -/
theorem c7_counterexample :
    runCalls006 none [.ok (Json.obj [("structures", Json.num 5)]),
        .ok (Json.obj [("structures", Json.num 5)])] =
      ([.error "Failed to parse dataflow list",
        .error "Failed to parse dataflow list"], none, 2) := rfl

/-- **C7, amended.**  For every sequence of `list_dataflows` calls whose
first call succeeds end to end — populating the cache — every later call
returns the same logical content as the first call and performs no
additional remote call, and the cache is populated once and never
invalidated, in all three cited variants: part_003 (first call's
pagination loop returns `v` after `n` page fetches; the sequence total
stays `n`), part_006 (first call's fetch and parse succeed; the whole
sequence performs exactly one fetch), and part_001 (a successful first
fetch alone suffices, because even an internal parse failure populates
the cache with the sentinel list, whose content calls 2..N then serve
without fetching). -/
theorem c7_cache_serves_first_result :
    (∀ (o1 : Oracle003) (os : List Oracle003) (v : List DFlow5) (n : Nat),
      collect003 o1 1 [] = (.ok v, n) →
      runCalls003 none (o1 :: os) =
        ((.ok v) :: os.map (fun _ => .ok v), some v, n)) ∧
    (∀ (j : Json) (os : List (Except String Json)) (v : List DFlowJ),
      parseDataflowList006 j = .ok v →
      runCalls006 none (.ok j :: os) =
        ((.ok v) :: os.map (fun _ => .ok v), some v, 1)) ∧
    (∀ (j : Json) (os : List (Except String Json)),
      runCalls001 none (.ok j :: os) =
        (parseDataflowList001 j :: os.map (fun _ => parseDataflowList001 j),
          some (parseDataflowList001 j), 1)) := by
  refine ⟨?_, ?_, ?_⟩
  · intro o1 os v n h
    simp [runCalls003, getAvailableDataflows003, h, structuredClone003,
      runCalls003_cached]
  · intro j os v h
    simp [runCalls006, getAvailableDataflows006, fetchCount006, h,
      runCalls006_cached]
  · intro j os
    simp [runCalls001, getAvailableDataflows001, fetchCount001,
      runCalls001_cached]

/-- A remote oracle whose every page is `{"structures": []}` (a valid
    document parsing to zero records, so pagination stops at page one). -/
def emptyPageOracle : Oracle003 :=
  fun _ => .page (Json.obj [("structures", Json.arr [])])

/-- Witness for `c7_cache_serves_first_result`: two calls per variant on
the document `{"structures": []}`; each first call fetches once and
populates the cache, each second call is served from it without
fetching. -/
theorem c7_cache_serves_first_result_witness :
    collect003 emptyPageOracle 1 [] = (.ok [], 1) ∧
    parseDataflowList006 (Json.obj [("structures", Json.arr [])]) = .ok [] ∧
    (runCalls003 none [emptyPageOracle, emptyPageOracle] =
      ([.ok [], .ok []], some [], 1) ∧
     runCalls006 none [.ok (Json.obj [("structures", Json.arr [])]),
        .ok (Json.obj [("structures", Json.arr [])])] =
      ([.ok [], .ok []], some [], 1) ∧
     runCalls001 none [.ok (Json.obj [("structures", Json.arr [])]),
        .ok (Json.obj [("structures", Json.arr [])])] =
      ([parseDataflowList001 (Json.obj [("structures", Json.arr [])]),
        parseDataflowList001 (Json.obj [("structures", Json.arr [])])],
       some (parseDataflowList001 (Json.obj [("structures", Json.arr [])])),
       1)) :=
  ⟨by unfold collect003; rfl, rfl,
   by simpa using
     (c7_cache_serves_first_result.1 emptyPageOracle [emptyPageOracle] [] 1
       (by unfold collect003; rfl)),
   by simpa using
     (c7_cache_serves_first_result.2.1
       (Json.obj [("structures", Json.arr [])])
       [.ok (Json.obj [("structures", Json.arr [])])] [] rfl),
   by simpa using
     (c7_cache_serves_first_result.2.2
       (Json.obj [("structures", Json.arr [])])
       [.ok (Json.obj [("structures", Json.arr [])])])⟩

/-! ## Claim C9 -/

/-- A page whose fetch succeeds, passes part_003's document guard and
    parses to zero records: the pagination loop's empty-page stop
    condition. -/
def emptyPage003 (oracle : Oracle003) (k : Nat) : Prop :=
  ∃ j, oracle k = .page j ∧
    (jsTruthy j && jsTruthy (jsGet j "structures")) = true ∧
    parseDataflowList003 j = .ok []

/-- Fuel-indexed specification of the part_003 pagination loop: the number
    of page fetches is bounded by the distance to the 1000-record cap, and
    a successful loop either accumulated at least 1000 records (cap stop)
    or encountered a page parsing to zero records (empty-page stop). -/
theorem collect003_bound_and_stop (m : Nat) :
    ∀ (oracle : Oracle003) (page : Nat) (acc : List DFlow5),
      1000 - acc.length ≤ m → acc.length < 1000 →
      (collect003 oracle page acc).2 ≤ 1000 - acc.length ∧
      (∀ v, (collect003 oracle page acc).1 = .ok v →
        1000 ≤ v.length ∨ ∃ k, page ≤ k ∧ emptyPage003 oracle k) := by
  induction m with
  | zero => intro oracle page acc h1 h2; omega
  | succ m ih =>
    intro oracle page acc h1 h2
    unfold collect003
    cases horacle : oracle page with
    | fail =>
        refine ⟨by simp; omega, ?_⟩
        intro v hv
        simp at hv
    | page j =>
        dsimp only
        by_cases hg : (jsTruthy j && jsTruthy (jsGet j "structures")) = false
        · rw [if_pos hg]
          refine ⟨by simp; omega, ?_⟩
          intro v hv
          simp at hv
        · rw [if_neg hg]
          cases hparse : parseDataflowList003 j with
          | error e =>
              dsimp only
              refine ⟨by omega, ?_⟩
              intro v hv
              simp at hv
          | ok dfs =>
              dsimp only
              by_cases hdfs : dfs = []
              · rw [dif_pos hdfs]
                refine ⟨by simp; omega, ?_⟩
                intro v hv
                right
                refine ⟨page, le_refl page, j, horacle, ?_, ?_⟩
                · cases hb : (jsTruthy j && jsTruthy (jsGet j "structures")) with
                  | false => exact absurd hb hg
                  | true => rfl
                · rw [hparse, hdfs]
              · rw [dif_neg hdfs]
                by_cases hcap : 1000 ≤ (acc ++ dfs).length
                · rw [dif_pos hcap]
                  refine ⟨by simp; omega, ?_⟩
                  intro v hv
                  simp at hv
                  left
                  rw [← hv]
                  exact hcap
                · rw [dif_neg hcap]
                  dsimp only
                  have hlt : acc.length < (acc ++ dfs).length := by
                    have := List.length_pos.mpr hdfs
                    simp [List.length_append]
                    omega
                  have hcap2 : (acc ++ dfs).length < 1000 := by omega
                  have hm : 1000 - (acc ++ dfs).length ≤ m := by omega
                  obtain ⟨hbound, hstop⟩ := ih oracle (page + 1) (acc ++ dfs) hm hcap2
                  constructor
                  · omega
                  · intro v hv
                    rcases hstop v hv with hl | ⟨k, hk, he⟩
                    · left; exact hl
                    · right; exact ⟨k, by omega, he⟩

/-- **C9.**  For every sequence of page responses, the part_003 pagination
loop (a sequential recursion: each page's fetch result is consumed before
the next page is requested) terminates with a number of page fetches
bounded by the distance to the 1000-record safety cap, and when it
returns records it stopped either because the accumulated count reached
1000 or because some page yielded zero records. -/
theorem c9_pagination_stops (oracle : Oracle003) (page : Nat)
    (acc : List DFlow5) (hacc : acc.length < 1000) :
    (collect003 oracle page acc).2 ≤ 1000 - acc.length ∧
    (∀ v, (collect003 oracle page acc).1 = .ok v →
      1000 ≤ v.length ∨ ∃ k, page ≤ k ∧ emptyPage003 oracle k) :=
  collect003_bound_and_stop 1000 oracle page acc (by omega) hacc

/-- Witness for `c9_pagination_stops` against `emptyPageOracle`. -/
theorem c9_pagination_stops_witness :
    ([] : List DFlow5).length < 1000 ∧
    ((collect003 emptyPageOracle 1 []).2 ≤ 1000 - ([] : List DFlow5).length ∧
     (∀ v, (collect003 emptyPageOracle 1 []).1 = .ok v →
       1000 ≤ v.length ∨ ∃ k, 1 ≤ k ∧ emptyPage003 emptyPageOracle k)) :=
  ⟨by decide, c9_pagination_stops emptyPageOracle 1 [] (by decide)⟩

/-! ## A heap model for the cache's aliasing behaviour (claim C8)

JS arrays are mutable references.  The value-level models above cannot
express caller-side mutation, so the reference discipline of
`getAvailableDataflows` is modelled against an explicit heap of record
arrays: a reference is an index into the heap, part_006 returns the cache
reference itself, part_003 returns a freshly allocated `structuredClone`.
The fetch-and-parse phase is abstracted as an `outcome` (its content is
the subject of the value-level models above). -/

/-- Dereference: the array held at `r` (empty when dangling; the theorems
    only use valid references). -/
def heapRead (h : List (List α)) (r : Nat) : List α := h.getD r []

/-- In-place mutation of the array at `r` (the caller writing through a
    returned reference). -/
def heapWrite (h : List (List α)) (r : Nat) (v : List α) : List (List α) :=
  h.set r v

/-- Allocation of a fresh array holding `v`. -/
def heapAlloc (h : List (List α)) (v : List α) : List (List α) × Nat :=
  (h ++ [v], h.length)

/-- The observable outcome of one heap-level `getAvailableDataflows`
    call: the result (a reference on success), the heap and the cache. -/
structure HeapCall (α : Type) where
  result : Except String Nat
  heap : List (List α)
  cache : Option Nat

/-- `getAvailableDataflows` of `src/unnamed/part_006` (lines 113–119) at
    the reference level: a cache hit returns the cached array reference
    itself (`return dataflowCache`); a successful first fetch allocates
    the parsed array, caches the reference and returns that same
    reference. -/
def getAvailableDataflows006Heap (h : List (List α)) (cache : Option Nat)
    (outcome : Except String (List α)) : HeapCall α :=
  match cache with
  | some rc => ⟨.ok rc, h, some rc⟩
  | none =>
    match outcome with
    | .error e => ⟨.error e, h, none⟩
    | .ok v =>
        let a := heapAlloc h v
        ⟨.ok a.2, a.1, some a.2⟩

/-- `getAvailableDataflows` of `src/unnamed/part_003` (lines 173–210) at
    the reference level: a cache hit returns `structuredClone(dataflowCache)`
    — a freshly allocated copy of the cached array; a successful first
    fetch caches the accumulated array and likewise returns a fresh
    clone. -/
def getAvailableDataflows003Heap (h : List (List α)) (cache : Option Nat)
    (outcome : Except String (List α)) : HeapCall α :=
  match cache with
  | some rc =>
      let a := heapAlloc h (heapRead h rc)
      ⟨.ok a.2, a.1, some rc⟩
  | none =>
    match outcome with
    | .error e => ⟨.error e, h, none⟩
    | .ok v =>
        let a := heapAlloc h v
        let b := heapAlloc a.1 (heapRead a.1 a.2)
        ⟨.ok b.2, b.1, some a.2⟩

/-- Reading a freshly appended array yields its contents. -/
theorem heapRead_concat_len (h : List (List α)) (v : List α) :
    heapRead (h ++ [v]) h.length = v := by
  simp [heapRead, List.getD_append_right h [v] [] h.length (le_refl _)]

/-- Appending an array does not change existing references. -/
theorem heapRead_concat_lt (h : List (List α)) (v : List α) (r : Nat)
    (hr : r < h.length) : heapRead (h ++ [v]) r = heapRead h r :=
  List.getD_append h [v] [] r hr

/-- Writing through the reference of a freshly appended array replaces
    exactly that array. -/
theorem heapWrite_concat_len :
    ∀ (h : List (List α)) (v w : List α),
      heapWrite (h ++ [v]) h.length w = h ++ [w]
  | [], _, _ => rfl
  | x :: h, v, w => congrArg (x :: ·) (heapWrite_concat_len h v w)

/-- Writing one reference leaves every other reference's content
    unchanged. -/
theorem heapRead_write_ne (h : List (List α)) (r r' : Nat) (v : List α)
    (hne : r ≠ r') : heapRead (heapWrite h r v) r' = heapRead h r' := by
  simp [heapRead, heapWrite, List.getD_eq_getD_get?,
    List.getElem?_set_ne hne]

/-! ## Claim C8 -/

/-- A concrete dataflow record for the part_006 counterexample. -/
def sampleFlowJ : DFlowJ :=
  { id := .str "CPI", name := .str "Consumer Price Index",
    description := .str "", agency := .str "ABS", version := .str "1.0.0" }

/-- **C8, counterexample.**  The claim states every value served from the
dataflow-list cache is a defensive copy, so caller mutation cannot change
later results.  In `src/unnamed/part_006`, `getAvailableDataflows`
returns the cached array reference itself: after a populating first call,
a second (cache-served) call returns reference 0 — the cache's own array —
and a caller mutating it changes the content that the third call returns
(from `[sampleFlowJ]` to `[]`). -/
theorem c8_counterexample :
    getAvailableDataflows006Heap ([] : List (List DFlowJ)) none
        (.ok [sampleFlowJ]) = ⟨.ok 0, [[sampleFlowJ]], some 0⟩ ∧
    getAvailableDataflows006Heap [[sampleFlowJ]] (some 0) (.ok []) =
      ⟨.ok 0, [[sampleFlowJ]], some 0⟩ ∧
    heapWrite [[sampleFlowJ]] 0 ([] : List DFlowJ) = [[]] ∧
    getAvailableDataflows006Heap [[]] (some 0)
        (.ok ([] : List DFlowJ)) = ⟨.ok 0, [[]], some 0⟩ ∧
    heapRead ([[]] : List (List DFlowJ)) 0 = [] ∧
    heapRead [[sampleFlowJ]] 0 = [sampleFlowJ] ∧
    ([] : List DFlowJ) ≠ [sampleFlowJ] := by
  refine ⟨rfl, rfl, rfl, rfl, rfl, rfl, ?_⟩
  intro hcon
  cases hcon

/-- **C8, amended.**  In `src/unnamed/part_003` the cache-served value is
a defensive copy: a cache-serving call returns a freshly allocated
reference (the next free heap slot) holding the cached content, and after
the caller overwrites that returned array, the cached array — and hence
the content returned by the next call — is unchanged.  In part_001 and
part_006 the returned value aliases the cache, and caller mutation does
corrupt later results (see the counterexample). -/
theorem c8_amended (h : List (List DFlow5)) (rc : Nat)
    (o o' : Except String (List DFlow5)) (w : List DFlow5)
    (hrc : rc < h.length) :
    (getAvailableDataflows003Heap h (some rc) o).result = .ok h.length ∧
    (getAvailableDataflows003Heap h (some rc) o).cache = some rc ∧
    heapRead (getAvailableDataflows003Heap h (some rc) o).heap h.length =
      heapRead h rc ∧
    heapRead
      (heapWrite (getAvailableDataflows003Heap h (some rc) o).heap h.length w)
      rc = heapRead h rc ∧
    (getAvailableDataflows003Heap
        (heapWrite (getAvailableDataflows003Heap h (some rc) o).heap h.length w)
        (some rc) o').result = .ok (h.length + 1) ∧
    heapRead
      (getAvailableDataflows003Heap
        (heapWrite (getAvailableDataflows003Heap h (some rc) o).heap h.length w)
        (some rc) o').heap (h.length + 1) = heapRead h rc := by
  have e1 : getAvailableDataflows003Heap h (some rc) o =
      ⟨.ok h.length, h ++ [heapRead h rc], some rc⟩ := rfl
  have e3 : heapWrite (h ++ [heapRead h rc]) h.length w = h ++ [w] :=
    heapWrite_concat_len h (heapRead h rc) w
  have e4 : heapRead (h ++ [w]) rc = heapRead h rc :=
    heapRead_concat_lt h w rc hrc
  have e5 : getAvailableDataflows003Heap (h ++ [w]) (some rc) o' =
      ⟨.ok (h ++ [w]).length, (h ++ [w]) ++ [heapRead (h ++ [w]) rc],
        some rc⟩ := rfl
  refine ⟨rfl, rfl, ?_, ?_, ?_, ?_⟩
  · rw [e1]
    exact heapRead_concat_len h (heapRead h rc)
  · rw [e1]
    dsimp only
    rw [e3]
    exact e4
  · rw [e1]
    dsimp only
    rw [e3, e5]
    simp
  · rw [e1]
    dsimp only
    rw [e3, e5]
    dsimp only
    have : (h ++ [w]).length = h.length + 1 := by simp
    rw [← this]
    rw [heapRead_concat_len (h ++ [w]) (heapRead (h ++ [w]) rc)]
    exact e4

/-- A concrete dataflow record for the `c8_amended` witness. -/
def sampleFlow5 : DFlow5 :=
  { id := "CPI", name := "Consumer Price Index", description := "",
    agency := "ABS", version := "1.0.0" }

/-- Witness for `c8_amended` at a one-entry heap whose cache points at
reference 0. -/
theorem c8_amended_witness :
    0 < ([[sampleFlow5]] : List (List DFlow5)).length ∧
    ((getAvailableDataflows003Heap [[sampleFlow5]] (some 0)
        (.ok [])).result = .ok 1 ∧
     (getAvailableDataflows003Heap [[sampleFlow5]] (some 0)
        (.ok [])).cache = some 0 ∧
     heapRead (getAvailableDataflows003Heap [[sampleFlow5]] (some 0)
        (.ok [])).heap 1 = heapRead [[sampleFlow5]] 0 ∧
     heapRead (heapWrite (getAvailableDataflows003Heap [[sampleFlow5]]
        (some 0) (.ok [])).heap 1 []) 0 = heapRead [[sampleFlow5]] 0 ∧
     (getAvailableDataflows003Heap (heapWrite (getAvailableDataflows003Heap
        [[sampleFlow5]] (some 0) (.ok [])).heap 1 []) (some 0)
        (.ok [])).result = .ok 2 ∧
     heapRead (getAvailableDataflows003Heap (heapWrite
        (getAvailableDataflows003Heap [[sampleFlow5]] (some 0)
          (.ok [])).heap 1 []) (some 0) (.ok [])).heap 2 =
       heapRead [[sampleFlow5]] 0) := by
  have happ := c8_amended [[sampleFlow5]] 0 (.ok []) (.ok []) []
    (by decide)
  exact ⟨by decide, happ⟩
